import Mathlib

/-!
Verification development for the two CLI utilities of this repository:
`src/open-webui/owui-chat.py` (OpenWebUI gateway variant) and
`src/ollama-chat.py` (Ollama orchestration/tracing variant).

The Python code is shallowly embedded: JSON payloads become an inductive
`Json` type, the dynamic Python operations used by the scripts (dict/list
subscripting, `in`, `.get`, `.split`, truthiness) become explicit
`Except PyErr`-valued functions, the process outcome becomes a `RunResult`
recording printed output, exit behaviour and the number of network calls.
-/

/-- A JSON value as produced by `response.json()`.  Numbers are modelled as
integers: no claim involves a non-integral JSON number. -/
inductive Json where
  | null
  | bool (b : Bool)
  | num (n : Int)
  | str (s : String)
  | arr (items : List Json)
  | obj (fields : List (String × Json))

/-- The Python exceptions the embedded code paths can raise. -/
inductive PyErr where
  | keyError (key : String)
  | typeError (message : String)
  | attributeError (message : String)
  | indexError (message : String)
deriving DecidableEq

/-- First-match lookup in a JSON object's field list (Python dicts coming out
of `json.loads` have unique keys, so first-match agrees with dict lookup). -/
def lookupField : List (String × Json) → String → Option Json
  | [], _ => none
  | (k, v) :: rest, key => if k = key then some v else lookupField rest key

/-- Python truthiness of a JSON value (`if x:`). -/
def Json.truthy : Json → Bool
  | .null => false
  | .bool b => b
  | .num n => n != 0
  | .str s => s != ""
  | .arr items => !items.isEmpty
  | .obj fields => !fields.isEmpty

/-- Python subscripting with a string key: `x['key']`. -/
def Json.subscriptStr : Json → String → Except PyErr Json
  | .obj fields, key =>
      match lookupField fields key with
      | some v => Except.ok v
      | none => Except.error (PyErr.keyError key)
  | .str _, _ => Except.error (PyErr.typeError "string indices must be integers")
  | .arr _, _ => Except.error (PyErr.typeError "list indices must be integers")
  | .null, _ => Except.error (PyErr.typeError "NoneType object is not subscriptable")
  | .bool _, _ => Except.error (PyErr.typeError "bool object is not subscriptable")
  | .num _, _ => Except.error (PyErr.typeError "int object is not subscriptable")

/-- Python subscripting with a non-negative integer index: `x[0]`.  The source
only ever indexes with the literal `0`, so negative indices are not modelled.
A dict subscripted with an integer raises `KeyError(0)`; the key is rendered
here as the string "0". -/
def Json.subscriptNat : Json → Nat → Except PyErr Json
  | .arr items, i =>
      match items.get? i with
      | some v => Except.ok v
      | none => Except.error (PyErr.indexError "list index out of range")
  | .str s, i =>
      match s.toList.get? i with
      | some c => Except.ok (Json.str (String.mk [c]))
      | none => Except.error (PyErr.indexError "string index out of range")
  | .obj _, _ => Except.error (PyErr.keyError "0")
  | .null, _ => Except.error (PyErr.typeError "NoneType object is not subscriptable")
  | .bool _, _ => Except.error (PyErr.typeError "bool object is not subscriptable")
  | .num _, _ => Except.error (PyErr.typeError "int object is not subscriptable")

/-- Is `needle` a contiguous substring of the character list? (Python
`key in some_string`.) -/
def substrCheck (needle : List Char) : List Char → Bool
  | [] => needle.isEmpty
  | c :: rest => needle.isPrefixOf (c :: rest) || substrCheck needle rest

/-- Python membership test `key in x` for a string key: key membership for a
dict, element equality for a list, substring test for a string, `TypeError`
for non-iterable values. -/
def Json.containsKey : Json → String → Except PyErr Bool
  | .obj fields, key => Except.ok (lookupField fields key).isSome
  | .arr items, key =>
      Except.ok (items.any fun j =>
        match j with
        | .str t => t == key
        | _ => false)
  | .str s, key => Except.ok (substrCheck key.toList s.toList)
  | .null, _ => Except.error (PyErr.typeError "argument of type NoneType is not iterable")
  | .bool _, _ => Except.error (PyErr.typeError "argument of type bool is not iterable")
  | .num _, _ => Except.error (PyErr.typeError "argument of type int is not iterable")

/-- Python `x.get(key)`: only dicts have `.get`; everything else raises
`AttributeError`. -/
def Json.pyGet : Json → String → Except PyErr (Option Json)
  | .obj fields, key => Except.ok (lookupField fields key)
  | .null, _ => Except.error (PyErr.attributeError "NoneType object has no attribute get")
  | .bool _, _ => Except.error (PyErr.attributeError "bool object has no attribute get")
  | .num _, _ => Except.error (PyErr.attributeError "int object has no attribute get")
  | .str _, _ => Except.error (PyErr.attributeError "str object has no attribute get")
  | .arr _, _ => Except.error (PyErr.attributeError "list object has no attribute get")

/-- Python iteration `for x in v`: list elements for a list, keys for a dict,
one-character strings for a string, `TypeError` otherwise. -/
def Json.iterItems : Json → Except PyErr (List Json)
  | .arr items => Except.ok items
  | .obj fields => Except.ok (fields.map fun kv => Json.str kv.1)
  | .str s => Except.ok (s.toList.map fun c => Json.str (String.mk [c]))
  | .null => Except.error (PyErr.typeError "NoneType object is not iterable")
  | .bool _ => Except.error (PyErr.typeError "bool object is not iterable")
  | .num _ => Except.error (PyErr.typeError "int object is not iterable")

/-- Python `str()` as used by f-string interpolation in the scripts.  Scalar
values match CPython; containers get a placeholder rendering (no claim path
formats a container into an f-string). -/
def pyToStr : Json → String
  | .str s => s
  | .num n => toString n
  | .bool b => if b then "True" else "False"
  | .null => "None"
  | .arr _ => "<list>"
  | .obj _ => "<dict>"

/-- The whitespace characters Python `str.split()` splits on (space, tab,
newline, carriage return, vertical tab, form feed). -/
def pyIsSpace (c : Char) : Bool :=
  c == ' ' || c == '\t' || c == '\n' || c == '\r' || c == Char.ofNat 11 || c == Char.ofNat 12

/-- Worker for `pySplit`: accumulates the current word (reversed) while
scanning. -/
def pySplitAux : List Char → List Char → List String
  | [], acc => if acc.isEmpty then [] else [String.mk acc.reverse]
  | c :: rest, acc =>
      if pyIsSpace c then
        if acc.isEmpty then pySplitAux rest []
        else String.mk acc.reverse :: pySplitAux rest []
      else pySplitAux rest (c :: acc)

/-- Python `s.split()` with no arguments: split on runs of whitespace,
discarding empty fields. -/
def pySplit (s : String) : List String := pySplitAux s.toList []

/-- Python `x.split()` on a JSON value: only strings have `.split`. -/
def Json.splitWords : Json → Except PyErr (List String)
  | .str s => Except.ok (pySplit s)
  | _ => Except.error (PyErr.attributeError "object has no attribute split")

/-!
## Gateway variant: `src/open-webui/owui-chat.py`
-/

/-- One unit of terminal output produced by the gateway script.  `line` is a
plain printed line whose exact text the claims inspect; `tps` is the line
`Tokens per second: {rate:.2f}` carrying the computed rate (the two-decimal
float formatting itself is not modelled, no claim depends on it); `debugFull`
and `responseDump` are the debug prints `Debug - Full response: ...` and
`Response: ...` carrying the raw payload. -/
inductive OutEvent where
  | line (text : String)
  | tps (rate : ℚ)
  | debugFull (payload : Json)
  | responseDump (payload : Json)
  | usageError

/-- How the process ends: fell off the end of `main` (exit 0), called
`sys.exit(code)`, or an exception propagated uncaught (CPython prints a
traceback and exits 1). -/
inductive ExitKind where
  | normal
  | exited (code : Nat)
  | raised (e : PyErr)

/-- Observable outcome of one run: printed output in order, exit behaviour,
and how many HTTP requests were issued. -/
structure RunResult where
  output : List OutEvent
  exit : ExitKind
  networkCalls : Nat

/-- Parsed command-line arguments of the gateway script (`parse_args`);
argument-parsing mechanics themselves are out of scope, so this is the
post-parse state. -/
structure Args where
  model : Option String
  prompt : Option String
  debug : Bool
  listModels : Bool

/-- The two environment variables read by `get_env_vars`. -/
structure Env where
  jwt : Option String
  baseUrl : Option String

/-- Python truthiness of an optional string argument (`not args.model`):
falsy when absent or empty. -/
def pyTruthyStrOpt : Option String → Bool
  | none => false
  | some s => s != ""

/-- The condition `'choices' in response_data and response_data['choices']`
from `chat_with_model` (lines 53): the `and` short-circuits, and the membership
test itself can raise on non-iterable values. -/
def chatChoicesTruthy (responseData : Json) : Except PyErr Bool := do
  let present ← responseData.containsKey "choices"
  if present then
    let v ← responseData.subscriptStr "choices"
    pure v.truthy
  else
    pure false

/-- The subscript chain `response['choices'][0]['message']['content']`, used
both in `chat_with_model` (line 55) and in `main`'s final print (line 95). -/
def chatFirstContent (responseData : Json) : Except PyErr Json := do
  let choices ← responseData.subscriptStr "choices"
  let first ← choices.subscriptNat 0
  let message ← first.subscriptStr "message"
  message.subscriptStr "content"

/-- The word-count throughput approximation of `chat_with_model` (line 56):
`tokens / duration if duration > 0 else 0`, with `tokens` the
whitespace-delimited word count of the content. -/
def tokensPerSecond (content : String) (duration : ℚ) : ℚ :=
  if 0 < duration then ((pySplit content).length : ℚ) / duration else 0

/-- Number of whitespace-delimited words (the script's "token" count). -/
def wordCount (content : String) : Nat := (pySplit content).length

/-- `chat_with_model` of `owui-chat.py` after the POST has returned.  Inputs:
the parsed response body and the measured wall-clock duration.  Output: the
lines printed by the function and the returned `response_data`, or the Python
exception that escaped it.  The request construction itself (URL, headers,
payload) is modelled separately by `chatRequestPayload`. -/
def chat_with_model (responseData : Json) (duration : ℚ) :
    Except PyErr (List OutEvent × Json) := do
  let cond ← chatChoicesTruthy responseData
  if cond then
    let content ← chatFirstContent responseData
    let words ← content.splitWords
    let tps : ℚ := if 0 < duration then ((words.length : ℚ) / duration) else 0
    pure ([OutEvent.tps tps], responseData)
  else
    pure ([OutEvent.line "Error: Unexpected response format"], responseData)

/-- The JSON body built by `chat_with_model` (lines 39-42):
`{'model': model, 'messages': [{'role': 'user', 'content': prompt}]}`. -/
def chatRequestPayload (model prompt : String) : Json :=
  Json.obj [("model", Json.str model),
            ("messages", Json.arr [Json.obj [("role", Json.str "user"),
                                             ("content", Json.str prompt)]])]

/-- Modelled from the spec words for the Request Builder contract: "a
ChatRequest with a single user-role message containing the prompt verbatim".
Stated independently of the source so the two can be compared. -/
def specChatRequestBody (model prompt : String) : Json :=
  Json.obj [("model", Json.str model),
            ("messages", Json.arr [Json.obj [("role", Json.str "user"),
                                             ("content", Json.str prompt)]])]

/-- The chat branch of `main` (lines 89-100): call `chat_with_model`, debug
print, the `if not response.get('choices')` renderer check, then the guarded
final print.  Output events accumulate in program order; an uncaught
exception keeps whatever was already printed. -/
def owuiChatPath (args : Args) (responseData : Json) (duration : ℚ) :
    List OutEvent × ExitKind :=
  match chat_with_model responseData duration with
  | Except.error e => ([], ExitKind.raised e)
  | Except.ok (evs, response) =>
    let evs := evs ++ (if args.debug then [OutEvent.debugFull response] else [])
    match response.pyGet "choices" with
    | Except.error e => (evs, ExitKind.raised e)
    | Except.ok choicesOpt =>
      if !(Json.truthy (choicesOpt.getD Json.null)) then
        (evs ++ [OutEvent.line "Error: Unexpected response format"], ExitKind.exited 1)
      else
        match chatFirstContent response with
        | Except.ok content => (evs ++ [OutEvent.line (pyToStr content)], ExitKind.normal)
        | Except.error (PyErr.keyError k) =>
          (evs ++ [OutEvent.line ("Error: Unexpected response structure: " ++ k)]
               ++ (if args.debug then [OutEvent.responseDump response] else []),
           ExitKind.exited 1)
        | Except.error e => (evs, ExitKind.raised e)

/-- One line of the `--list-models` loop (line 80):
`f"- {model_info['id']} ({model_info['ollama']['details'].get('parameter_size', 'unknown size')})"`.
The f-string evaluates `model_info['id']` first, then the nested lookup. -/
def renderModelLine (modelInfo : Json) : Except PyErr OutEvent := do
  let idJ ← modelInfo.subscriptStr "id"
  let oll ← modelInfo.subscriptStr "ollama"
  let det ← oll.subscriptStr "details"
  let szOpt ← det.pyGet "parameter_size"
  let sz := szOpt.getD (Json.str "unknown size")
  pure (OutEvent.line ("- " ++ pyToStr idJ ++ " (" ++ pyToStr sz ++ ")"))

/-- The `for model_info in models['data']` loop body, accumulating printed
lines until one iteration raises. -/
def renderModelLines : List Json → List OutEvent → List OutEvent × ExitKind
  | [], acc => (acc, ExitKind.normal)
  | mi :: rest, acc =>
      match renderModelLine mi with
      | Except.ok ev => renderModelLines rest (acc ++ [ev])
      | Except.error e => (acc, ExitKind.raised e)

/-- The `--list-models` branch of `main` (lines 75-80). -/
def owuiListPath (args : Args) (models : Json) : List OutEvent × ExitKind :=
  let dbg := if args.debug then [OutEvent.debugFull models] else []
  match models.subscriptStr "data" with
  | Except.error e => (dbg, ExitKind.raised e)
  | Except.ok dataJ =>
    match dataJ.iterItems with
    | Except.error e => (dbg, ExitKind.raised e)
    | Except.ok items =>
      let (evs, ek) := renderModelLines items []
      (dbg ++ evs, ek)

/-- `main` of `owui-chat.py`, parameterised by the parsed args, the two
environment variables, the JSON body the single HTTP call returns, and the
measured duration.  `get_env_vars` (lines 19-31) is inlined: it checks
`JWT_TOKEN` then `BASE_URL` against `None` (not truthiness) and exits 1 with
the exact message.  `networkCalls` counts HTTP requests actually issued:
both the chat POST and the list GET happen before any response parsing. -/
def owuiMain (args : Args) (env : Env) (netResponse : Json) (duration : ℚ) :
    RunResult :=
  match env.jwt with
  | none => ⟨[OutEvent.line "Error: JWT_TOKEN not found in .env file"], ExitKind.exited 1, 0⟩
  | some _ =>
    match env.baseUrl with
    | none => ⟨[OutEvent.line "Error: BASE_URL not found in .env file"], ExitKind.exited 1, 0⟩
    | some _ =>
      if args.listModels then
        let (evs, ek) := owuiListPath args netResponse
        ⟨evs, ek, 1⟩
      else if !pyTruthyStrOpt args.model || !pyTruthyStrOpt args.prompt then
        ⟨[OutEvent.usageError], ExitKind.exited 2, 0⟩
      else
        let (evs, ek) := owuiChatPath args netResponse duration
        ⟨evs, ek, 1⟩

/-- Count occurrences of an exact printed line among the output events. -/
def countLine (s : String) : List OutEvent → Nat
  | [] => 0
  | OutEvent.line t :: rest => (if t = s then 1 else 0) + countLine s rest
  | _ :: rest => countLine s rest

/-!
## Orchestration/tracing variant: `src/ollama-chat.py`
-/

/-- The argparse-plus-truthiness resolution of one setting in `__main__`:
`default=os.getenv(...)` makes the parsed value the CLI string when the flag
is given, else the environment value (possibly absent), and
`if not args.x: raise ValueError(msg)` rejects an absent or empty result. -/
def ollamaResolve (cli envDefault : Option String) (msg : String) :
    Except String String :=
  match cli.orElse (fun _ => envDefault) with
  | none => Except.error msg
  | some s => if s = "" then Except.error msg else Except.ok s

/-- The two required-setting checks of `__main__` (lines 95-98), in source
order: base URL first, then model.  An `Except.error` is the `ValueError`
that propagates uncaught (non-zero process exit, message in the traceback). -/
def ollamaMainStartup (cliBase cliModel envBase envModel : Option String) :
    Except String (String × String) :=
  match ollamaResolve cliBase envBase "Base URL is required in command line or .env file" with
  | Except.error m => Except.error m
  | Except.ok b =>
    match ollamaResolve cliModel envModel "Model is required in command line or .env file" with
    | Except.error m => Except.error m
    | Except.ok mdl => Except.ok (b, mdl)

/-- The environment variables the tracing variant reads at import time. -/
structure OllamaEnvFile where
  otelEndpoint : Option String
  ollamaBaseUrl : Option String
  defaultModel : Option String

/-- The module-level check (lines 16-17):
`if not os.getenv("OTEL_EXPORTER_OTLP_ENDPOINT"): raise ValueError(...)`.
Truthiness: both an unset and an empty variable raise. -/
def otelStartupCheck (otelEndpoint : Option String) : Except String Unit :=
  match otelEndpoint with
  | none => Except.error "OTEL_EXPORTER_OTLP_ENDPOINT must be set in .env file"
  | some s =>
      if s = "" then Except.error "OTEL_EXPORTER_OTLP_ENDPOINT must be set in .env file"
      else Except.ok ()

/-- Coarse outcome of one run of the tracing variant: did module import abort
before `__main__`, and was the model invocation reached. -/
structure OllamaRun where
  abortedAtStartup : Bool
  modelCallAttempted : Bool

/-- Whole-program startup flow of `ollama-chat.py`: the module-level OTel
check, then the two required-setting checks, then (if all passed) the model
call.  `collectorReachable` models whether the configured trace collector is
actually reachable on the network; the source never consults it — after the
env-var check it only constructs `OTLPSpanExporter`/`BatchSpanProcessor`
objects, which make no synchronous connection at startup — so the function
does not depend on it. -/
def ollamaProgramRun (env : OllamaEnvFile) (collectorReachable : Bool)
    (cliBase cliModel : Option String) : OllamaRun :=
  match otelStartupCheck env.otelEndpoint with
  | Except.error _ => ⟨true, false⟩
  | Except.ok () =>
    match ollamaMainStartup cliBase cliModel env.ollamaBaseUrl env.defaultModel with
    | Except.error _ => ⟨false, false⟩
    | Except.ok _ => ⟨false, true⟩

/-- One telemetry action of `chat_with_model` in `ollama-chat.py`, in the
order it happens: opening a span, setting an attribute on a span, marking a
span's status as error with a message, closing a span. -/
inductive TraceEvent where
  | spanStart (name : String)
  | setAttr (span key value : String)
  | setStatusError (span errMsg : String)
  | spanEnd (name : String)
deriving DecidableEq

/-- `chat_with_model` of `ollama-chat.py` (lines 60-83).  The two fallible
steps inside the `try` are the `OllamaLLM(...)` construction (before the
inner span opens) and `llm.invoke(prompt)` (inside the inner span); each is
an abstract `Except` parameter with exception values of type `ε` carrying a
message via `excMsg`.  `with tracer.start_as_current_span(...)` semantics:
the span-end event is emitted whether the body returns or raises; the
`except` clause sets the outer span's error status and re-raises, after the
inner span (if open) has already closed.  Attribute writes made by the
library-driven `OTelCallbackHandler` during `invoke` are part of the
out-of-scope orchestration library and are not modelled; they only add
attributes and never touch span status or closure. -/
def chat_with_model_traced {ε : Type} (excMsg : ε → String)
    (prompt baseUrl modelName : String)
    (constructLLM : Except ε Unit) (invokeLLM : Except ε String) :
    Except ε String × List TraceEvent :=
  let pre : List TraceEvent :=
    [TraceEvent.spanStart "chat_with_model",
     TraceEvent.setAttr "chat_with_model" "prompt.text" prompt,
     TraceEvent.setAttr "chat_with_model" "model.name" modelName,
     TraceEvent.setAttr "chat_with_model" "base.url" baseUrl]
  match constructLLM with
  | Except.error e =>
      (Except.error e,
       pre ++ [TraceEvent.setStatusError "chat_with_model" (excMsg e),
               TraceEvent.spanEnd "chat_with_model"])
  | Except.ok () =>
      match invokeLLM with
      | Except.error e =>
          (Except.error e,
           pre ++ [TraceEvent.spanStart "ollama.invoke",
                   TraceEvent.spanEnd "ollama.invoke",
                   TraceEvent.setStatusError "chat_with_model" (excMsg e),
                   TraceEvent.spanEnd "chat_with_model"])
      | Except.ok r =>
          (Except.ok r,
           pre ++ [TraceEvent.spanStart "ollama.invoke",
                   TraceEvent.setAttr "ollama.invoke" "response.length" (toString r.length),
                   TraceEvent.spanEnd "ollama.invoke",
                   TraceEvent.spanEnd "chat_with_model"])

/-- How many spans named `n` were opened in the event list. -/
def countSpanStart (n : String) : List TraceEvent → Nat
  | [] => 0
  | TraceEvent.spanStart m :: rest => (if m = n then 1 else 0) + countSpanStart n rest
  | _ :: rest => countSpanStart n rest

/-- How many spans named `n` were closed in the event list. -/
def countSpanEnd (n : String) : List TraceEvent → Nat
  | [] => 0
  | TraceEvent.spanEnd m :: rest => (if m = n then 1 else 0) + countSpanEnd n rest
  | _ :: rest => countSpanEnd n rest

/-!
## Claims
-/

/-- C3: for every model name and prompt string, the request body built by
`chat_with_model` is exactly
`{"model": model, "messages": [{"role": "user", "content": prompt}]}` — it
coincides with the spec-modelled shape, its `model` field is the model name,
its `messages` field is the single user-role message carrying the prompt
verbatim, and at model `llama3` / prompt `Hello` it is the literal body of
Scenario 1. -/
theorem claim3_request_body (model prompt : String) :
    chatRequestPayload model prompt = specChatRequestBody model prompt ∧
    (chatRequestPayload model prompt).subscriptStr "model" = Except.ok (Json.str model) ∧
    (chatRequestPayload model prompt).subscriptStr "messages" =
      Except.ok (Json.arr [Json.obj [("role", Json.str "user"),
                                     ("content", Json.str prompt)]]) ∧
    chatRequestPayload "llama3" "Hello" =
      Json.obj [("model", Json.str "llama3"),
                ("messages", Json.arr [Json.obj [("role", Json.str "user"),
                                                 ("content", Json.str "Hello")]])] := by
  exact ⟨rfl, rfl, rfl, rfl⟩

/-- C4 (code bug): on the chat-mode response `{"choices":[{}]}` — a non-empty
`choices` list whose first choice lacks `message` — the program does not
print a diagnostic and exit 1; instead the unguarded access
`response_data['choices'][0]['message']['content']` inside `chat_with_model`
(line 55) raises `KeyError('message')`, which nothing catches: the guarded
`try/except KeyError` of `main` (lines 94-100) is never reached. -/
theorem claim4_code_bug :
    owuiMain ⟨some "llama3", some "Hello", false, false⟩
        ⟨some "token", some "http://localhost:3000"⟩
        (Json.obj [("choices", Json.arr [Json.obj []])]) 1 =
      ⟨[], ExitKind.raised (PyErr.keyError "message"), 1⟩ := rfl

/-- C6: whenever `JWT_TOKEN` is absent from the environment, the gateway
program prints exactly `Error: JWT_TOKEN not found in .env file`, exits with
status 1, and performs zero network calls — for every combination of parsed
arguments, `BASE_URL` value, would-be response and duration. -/
theorem claim6_jwt_missing (args : Args) (baseUrl : Option String)
    (netResponse : Json) (duration : ℚ) :
    owuiMain args ⟨none, baseUrl⟩ netResponse duration =
      ⟨[OutEvent.line "Error: JWT_TOKEN not found in .env file"], ExitKind.exited 1, 0⟩ := rfl

/-- C1 counterexample: the JSON value `null` is a chat-mode response lacking a
non-empty `choices` array, yet the program prints nothing and crashes with an
unhandled `TypeError` from `'choices' in response_data` — contradicting the
claim that every such response yields the printed diagnostic, exit status 1
and no unhandled exception. -/
theorem claim1_counterexample :
    owuiMain ⟨some "llama3", some "Hello", false, false⟩
        ⟨some "token", some "http://localhost:3000"⟩ Json.null 1 =
      ⟨[], ExitKind.raised (PyErr.typeError "argument of type NoneType is not iterable"), 1⟩ := rfl

/-- C10 counterexample: the JSON object `{"choices": 5}` lacks a non-empty
`choices` array, yet the diagnostic line is printed zero times, not twice:
the truthy non-list value passes the guard on line 53 and `5[0]` raises an
unhandled `TypeError` inside `chat_with_model`. -/
theorem claim10_counterexample :
    owuiMain ⟨some "llama3", some "Hello", false, false⟩
        ⟨some "token", some "http://localhost:3000"⟩
        (Json.obj [("choices", Json.num 5)]) 1 =
      ⟨[], ExitKind.raised (PyErr.typeError "int object is not subscriptable"), 1⟩ := rfl

/-- C5 counterexample: with the base URL supplied on the command line as the
empty string and also supplied (non-empty) by the environment, the run is
rejected — the code neither uses the CLI value nor falls back to the
environment value, and it rejects although the value is absent from neither
source. -/
theorem claim5_counterexample :
    ollamaMainStartup (some "") none (some "http://localhost:11434") (some "llama3") =
      Except.error "Base URL is required in command line or .env file" := rfl

/-- C5 (amended): the resolver takes the CLI value when the flag is given,
else the environment value, and rejects the run with the error message (and
a non-zero exit, the `ValueError` being uncaught) exactly when the resulting
value is absent or empty — Python truthiness, so an explicitly empty CLI or
environment value is treated as absent. -/
theorem claim5_amended (envDefault : Option String) (msg : String) :
    (∀ s : String, s ≠ "" → ollamaResolve (some s) envDefault msg = Except.ok s) ∧
    (∀ s : String, s ≠ "" → ollamaResolve none (some s) msg = Except.ok s) ∧
    ollamaResolve none none msg = Except.error msg ∧
    ollamaResolve (some "") envDefault msg = Except.error msg ∧
    ollamaResolve none (some "") msg = Except.error msg := by
  refine ⟨?_, ?_, rfl, rfl, rfl⟩ <;> intro s hs <;>
    simp [ollamaResolve, Option.orElse, hs]

/-- Witness for C5 (amended): a present non-empty CLI value wins over a
present environment value. -/
theorem claim5_witness :
    "http://cli.example:11434" ≠ "" ∧
      ollamaResolve (some "http://cli.example:11434") (some "http://env.example:11434")
          "Base URL is required in command line or .env file" =
        Except.ok "http://cli.example:11434" :=
  ⟨by decide, (claim5_amended (some "http://env.example:11434")
      "Base URL is required in command line or .env file").1
      "http://cli.example:11434" (by decide)⟩

/-- C8 counterexample: with the collector endpoint variable set but the
collector unreachable, the tracing variant neither aborts at startup nor
refrains from the model call — the import-time check (lines 16-17) reads
only the environment variable and no reachability check exists anywhere in
the program. -/
theorem claim8_counterexample :
    ollamaProgramRun ⟨some "http://collector:4317", some "http://localhost:11434", some "llama3"⟩
        false none none =
      ⟨false, true⟩ := rfl

/-- C8 (amended): the tracing variant aborts at startup — before any model
call — exactly on the strength of the `OTEL_EXPORTER_OTLP_ENDPOINT`
environment variable being unset or empty, and its behaviour is independent
of whether the collector is actually reachable. -/
theorem claim8_amended (env : OllamaEnvFile) (r1 r2 : Bool)
    (cliBase cliModel : Option String) :
    ((env.otelEndpoint = none ∨ env.otelEndpoint = some "") →
      ollamaProgramRun env r1 cliBase cliModel = ⟨true, false⟩) ∧
    ollamaProgramRun env r1 cliBase cliModel = ollamaProgramRun env r2 cliBase cliModel := by
  constructor
  · rintro (h | h) <;> simp [ollamaProgramRun, otelStartupCheck, h]
  · rfl

/-- Witness for C8 (amended): with the endpoint variable unset the program
aborts at startup and attempts no model call. -/
theorem claim8_witness :
    ((⟨none, some "http://localhost:11434", some "llama3"⟩ : OllamaEnvFile).otelEndpoint = none ∨
        (⟨none, some "http://localhost:11434", some "llama3"⟩ : OllamaEnvFile).otelEndpoint = some "") ∧
      ollamaProgramRun ⟨none, some "http://localhost:11434", some "llama3"⟩ true none none =
        ⟨true, false⟩ :=
  ⟨Or.inl rfl,
   (claim8_amended ⟨none, some "http://localhost:11434", some "llama3"⟩ true true none none).1
     (Or.inl rfl)⟩

/-- C9 counterexample: in list-models mode a descriptor `{"id":"m1"}` has no
size metadata at all, yet no `- m1 (unknown size)` line is printed: the
nested access `model_info['ollama']` raises an unhandled `KeyError` — the
`unknown size` default only covers a missing `parameter_size` key inside an
existing `ollama.details` object. -/
theorem claim9_counterexample :
    owuiMain ⟨none, none, false, true⟩ ⟨some "token", some "http://localhost:3000"⟩
        (Json.obj [("data", Json.arr [Json.obj [("id", Json.str "m1")]])]) 1 =
      ⟨[], ExitKind.raised (PyErr.keyError "ollama"), 1⟩ := rfl

/-- C9 (amended): the list-models renderer prints `- <id> (<size>)` from the
descriptor's `ollama.details.parameter_size`, and defaults to `unknown size`
only when `parameter_size` is absent from an existing `ollama.details`
object; a descriptor missing the `ollama` key raises an unhandled
`KeyError` instead of defaulting; the Scenario 4 payload prints `- m1 (7B)`
end to end. -/
theorem claim9_amended (idStr sz : String) (detailFields : List (String × Json)) :
    renderModelLine (Json.obj [("id", Json.str idStr),
        ("ollama", Json.obj [("details", Json.obj [("parameter_size", Json.str sz)])])]) =
      Except.ok (OutEvent.line ("- " ++ idStr ++ " (" ++ sz ++ ")")) ∧
    (lookupField detailFields "parameter_size" = none →
      renderModelLine (Json.obj [("id", Json.str idStr),
          ("ollama", Json.obj [("details", Json.obj detailFields)])]) =
        Except.ok (OutEvent.line ("- " ++ idStr ++ " (" ++ "unknown size" ++ ")"))) ∧
    renderModelLine (Json.obj [("id", Json.str idStr)]) =
      Except.error (PyErr.keyError "ollama") ∧
    owuiMain ⟨none, none, false, true⟩ ⟨some "token", some "http://localhost:3000"⟩
        (Json.obj [("data", Json.arr [Json.obj [("id", Json.str "m1"),
            ("ollama", Json.obj [("details",
              Json.obj [("parameter_size", Json.str "7B")])])]])]) 1 =
      ⟨[OutEvent.line "- m1 (7B)"], ExitKind.normal, 1⟩ := by
  refine ⟨rfl, ?_, rfl, rfl⟩
  intro h
  simp [renderModelLine, Json.subscriptStr, Json.pyGet, lookupField, h,
    bind, Except.bind, pyToStr, pure, Except.pure]

/-- Witness for C9 (amended): a descriptor whose `ollama.details` object
exists but has no `parameter_size` key gets the `unknown size` default. -/
theorem claim9_witness :
    lookupField [("family", Json.str "llama")] "parameter_size" = none ∧
      renderModelLine (Json.obj [("id", Json.str "m2"),
          ("ollama", Json.obj [("details", Json.obj [("family", Json.str "llama")])])]) =
        Except.ok (OutEvent.line ("- " ++ "m2" ++ " (" ++ "unknown size" ++ ")")) :=
  ⟨rfl, (claim9_amended "m2" "7B" [("family", Json.str "llama")]).2.1 rfl⟩

/-- Helper: `chat_with_model` on a JSON-object response whose `choices` key
is absent or falsy takes the `else` branch and prints the diagnostic. -/
theorem chat_with_model_falsy (fs : List (String × Json)) (d : ℚ)
    (hch : Json.truthy ((lookupField fs "choices").getD Json.null) = false) :
    chat_with_model (Json.obj fs) d =
      Except.ok ([OutEvent.line "Error: Unexpected response format"], Json.obj fs) := by
  unfold chat_with_model chatChoicesTruthy
  rcases hlf : lookupField fs "choices" with _ | v
  · simp [Json.containsKey, hlf, bind, Except.bind, pure, Except.pure]
  · have hv : v.truthy = false := by simpa [hlf] using hch
    simp [Json.containsKey, Json.subscriptStr, hlf, hv, bind, Except.bind, pure, Except.pure]

/-- Helper: the whole chat-mode run on such a response: the diagnostic is
printed once inside `chat_with_model`, the optional debug dump follows, the
renderer check in `main` prints the diagnostic again and exits 1. -/
theorem owui_chat_falsy_run (mdl pr tok burl : String) (dbg : Bool)
    (fs : List (String × Json)) (d : ℚ) (hm : mdl ≠ "") (hp : pr ≠ "")
    (hch : Json.truthy ((lookupField fs "choices").getD Json.null) = false) :
    owuiMain ⟨some mdl, some pr, dbg, false⟩ ⟨some tok, some burl⟩ (Json.obj fs) d =
      ⟨[OutEvent.line "Error: Unexpected response format"] ++
         (if dbg then [OutEvent.debugFull (Json.obj fs)] else []) ++
         [OutEvent.line "Error: Unexpected response format"],
       ExitKind.exited 1, 1⟩ := by
  have hc := chat_with_model_falsy fs d hch
  unfold owuiMain owuiChatPath
  rw [hc]
  simp [pyTruthyStrOpt, hm, hp, Json.pyGet, hch]

/-- C1 (amended): for every chat-mode response that is a JSON object whose
`choices` key is absent or maps to a falsy value (such as the empty object
`{}` or `{"choices": []}`), the gateway prints the diagnostic
`Error: Unexpected response format` and exits with status code 1, with no
unhandled exception on that path — for any non-empty model and prompt,
any credentials and any debug setting. -/
theorem claim1_amended (mdl pr tok burl : String) (dbg : Bool)
    (fs : List (String × Json)) (d : ℚ) (hm : mdl ≠ "") (hp : pr ≠ "")
    (hch : Json.truthy ((lookupField fs "choices").getD Json.null) = false) :
    (owuiMain ⟨some mdl, some pr, dbg, false⟩ ⟨some tok, some burl⟩ (Json.obj fs) d).exit =
        ExitKind.exited 1 ∧
      1 ≤ countLine "Error: Unexpected response format"
        (owuiMain ⟨some mdl, some pr, dbg, false⟩ ⟨some tok, some burl⟩ (Json.obj fs) d).output := by
  rw [owui_chat_falsy_run mdl pr tok burl dbg fs d hm hp hch]
  refine ⟨rfl, ?_⟩
  cases dbg <;> simp [countLine]

/-- Witness for C1 (amended): the Scenario 3 response `{}`. -/
theorem claim1_witness :
    ("llama3" ≠ "" ∧ "Hello" ≠ "" ∧
        Json.truthy ((lookupField [] "choices").getD Json.null) = false) ∧
      ((owuiMain ⟨some "llama3", some "Hello", false, false⟩
          ⟨some "token", some "http://localhost:3000"⟩ (Json.obj []) 1).exit =
          ExitKind.exited 1 ∧
        1 ≤ countLine "Error: Unexpected response format"
          (owuiMain ⟨some "llama3", some "Hello", false, false⟩
            ⟨some "token", some "http://localhost:3000"⟩ (Json.obj []) 1).output) :=
  ⟨⟨by decide, by decide, rfl⟩,
   claim1_amended "llama3" "Hello" "token" "http://localhost:3000" false [] 1
     (by decide) (by decide) rfl⟩

/-- C10 (amended): for every chat-mode response that is a JSON object whose
`choices` key is absent or falsy, the line `Error: Unexpected response
format` is printed exactly twice before the process exits with status 1 —
once by the throughput computation inside `chat_with_model` and once by the
renderer check in `main`. -/
theorem claim10_amended (mdl pr tok burl : String) (dbg : Bool)
    (fs : List (String × Json)) (d : ℚ) (hm : mdl ≠ "") (hp : pr ≠ "")
    (hch : Json.truthy ((lookupField fs "choices").getD Json.null) = false) :
    countLine "Error: Unexpected response format"
        (owuiMain ⟨some mdl, some pr, dbg, false⟩ ⟨some tok, some burl⟩ (Json.obj fs) d).output = 2 ∧
      (owuiMain ⟨some mdl, some pr, dbg, false⟩ ⟨some tok, some burl⟩ (Json.obj fs) d).exit =
        ExitKind.exited 1 := by
  rw [owui_chat_falsy_run mdl pr tok burl dbg fs d hm hp hch]
  refine ⟨?_, rfl⟩
  cases dbg <;> simp [countLine]

/-- Witness for C10 (amended): `{"choices": []}` with debug enabled — the
debug dump does not change the count of two diagnostic lines. -/
theorem claim10_witness :
    ("mistral" ≠ "" ∧ "Hi" ≠ "" ∧
        Json.truthy ((lookupField [("choices", Json.arr [])] "choices").getD Json.null) = false) ∧
      (countLine "Error: Unexpected response format"
          (owuiMain ⟨some "mistral", some "Hi", true, false⟩
            ⟨some "token", some "http://localhost:3000"⟩
            (Json.obj [("choices", Json.arr [])]) 2).output = 2 ∧
        (owuiMain ⟨some "mistral", some "Hi", true, false⟩
          ⟨some "token", some "http://localhost:3000"⟩
          (Json.obj [("choices", Json.arr [])]) 2).exit = ExitKind.exited 1) :=
  ⟨⟨by decide, by decide, rfl⟩,
   claim10_amended "mistral" "Hi" "token" "http://localhost:3000" true
     [("choices", Json.arr [])] 2 (by decide) (by decide) rfl⟩

/-- The canonical well-formed chat response whose first choice carries the
given message content; `rest` is any tail of further choices. -/
def chatResponseWith (content : String) (rest : List Json) : Json :=
  Json.obj [("choices", Json.arr (Json.obj [("message",
      Json.obj [("content", Json.str content)])] :: rest))]

/-- C2: for every chat-mode response whose first choice carries message
content, the reported tokens-per-second value is `wordCount / elapsed` when
the elapsed time is positive and `0` when it is zero; it is always `≥ 0`,
and it is `0` exactly when the elapsed time is `0` or the word count is
`0`. -/
theorem claim2_throughput (content : String) (rest : List Json) (d : ℚ) (hd : 0 ≤ d) :
    chat_with_model (chatResponseWith content rest) d =
      Except.ok ([OutEvent.tps (tokensPerSecond content d)], chatResponseWith content rest) ∧
    (0 < d → tokensPerSecond content d = (wordCount content : ℚ) / d) ∧
    (d = 0 → tokensPerSecond content d = 0) ∧
    0 ≤ tokensPerSecond content d ∧
    (tokensPerSecond content d = 0 ↔ d = 0 ∨ wordCount content = 0) := by
  refine ⟨rfl, ?_, ?_, ?_, ?_⟩
  · intro h
    simp [tokensPerSecond, wordCount, h]
  · intro h
    simp [tokensPerSecond, h]
  · by_cases h : 0 < d
    · rw [tokensPerSecond, if_pos h]
      positivity
    · simp [tokensPerSecond, h]
  · by_cases h : 0 < d
    · rw [tokensPerSecond, if_pos h, div_eq_zero_iff]
      constructor
      · rintro (h1 | h1)
        · exact Or.inr (by exact_mod_cast h1)
        · exact absurd h1 (ne_of_gt h)
      · rintro (h1 | h1)
        · exact absurd h1 (ne_of_gt h)
        · exact Or.inl (by exact_mod_cast h1)
    · have hz : d = 0 := le_antisymm (not_lt.mp h) hd
      simp [tokensPerSecond, hz]

/-- Witness for C2: the Scenario 2 content `Hi there` with elapsed 2 seconds
(rate 2 words / 2 s = 1). -/
theorem claim2_witness :
    (0 : ℚ) ≤ 2 ∧
      (chat_with_model (chatResponseWith "Hi there" []) 2 =
          Except.ok ([OutEvent.tps (tokensPerSecond "Hi there" 2)],
            chatResponseWith "Hi there" []) ∧
        (0 < (2 : ℚ) → tokensPerSecond "Hi there" 2 = (wordCount "Hi there" : ℚ) / 2) ∧
        ((2 : ℚ) = 0 → tokensPerSecond "Hi there" 2 = 0) ∧
        0 ≤ tokensPerSecond "Hi there" 2 ∧
        (tokensPerSecond "Hi there" 2 = 0 ↔ (2 : ℚ) = 0 ∨ wordCount "Hi there" = 0)) :=
  ⟨by norm_num, claim2_throughput "Hi there" [] 2 (by norm_num)⟩

/-- C7: in the tracing variant, whenever the wrapped model call fails —
during `OllamaLLM` construction or during `llm.invoke` — the outer span's
status is set to error with that exception's message and the very same
exception re-raises unchanged; and on every path, success or failure, each
opened span is closed (span starts and ends balance for every span name). -/
theorem claim7_tracing {ε : Type} (excMsg : ε → String)
    (prompt baseUrl modelName : String)
    (constructLLM : Except ε Unit) (invokeLLM : Except ε String) :
    (∀ n, countSpanStart n
        (chat_with_model_traced excMsg prompt baseUrl modelName constructLLM invokeLLM).2 =
      countSpanEnd n
        (chat_with_model_traced excMsg prompt baseUrl modelName constructLLM invokeLLM).2) ∧
    (∀ e, constructLLM = Except.error e →
      (chat_with_model_traced excMsg prompt baseUrl modelName constructLLM invokeLLM).1 =
          Except.error e ∧
        TraceEvent.setStatusError "chat_with_model" (excMsg e) ∈
          (chat_with_model_traced excMsg prompt baseUrl modelName constructLLM invokeLLM).2) ∧
    (∀ e, constructLLM = Except.ok () → invokeLLM = Except.error e →
      (chat_with_model_traced excMsg prompt baseUrl modelName constructLLM invokeLLM).1 =
          Except.error e ∧
        TraceEvent.setStatusError "chat_with_model" (excMsg e) ∈
          (chat_with_model_traced excMsg prompt baseUrl modelName constructLLM invokeLLM).2) := by
  rcases constructLLM with ec | u
  · refine ⟨?_, ?_, ?_⟩
    · intro n
      simp [chat_with_model_traced, countSpanStart, countSpanEnd]
    · intro e he
      rw [Except.error.injEq] at he
      subst he
      exact ⟨rfl, by simp [chat_with_model_traced]⟩
    · intro e he
      exact absurd he (by simp)
  · cases u
    rcases invokeLLM with ei | r
    · refine ⟨?_, ?_, ?_⟩
      · intro n
        simp [chat_with_model_traced, countSpanStart, countSpanEnd]
        split_ifs <;> simp
      · intro e he
        exact absurd he (by simp)
      · intro e _ hi
        rw [Except.error.injEq] at hi
        subst hi
        exact ⟨rfl, by simp [chat_with_model_traced]⟩
    · refine ⟨?_, ?_, ?_⟩
      · intro n
        simp [chat_with_model_traced, countSpanStart, countSpanEnd]
        split_ifs <;> simp
      · intro e he
        exact absurd he (by simp)
      · intro e _ hi
        exact absurd hi (by simp)

/-- Witness for C7: a concrete failing invoke (`connection refused`) — the
exception re-raises unchanged and the outer span carries the error status. -/
theorem claim7_witness :
    (chat_with_model_traced (fun s => s) "Hello" "http://localhost:11434" "llama3"
        (Except.ok ()) (Except.error "connection refused")).1 =
        Except.error "connection refused" ∧
      TraceEvent.setStatusError "chat_with_model" "connection refused" ∈
        (chat_with_model_traced (fun s => s) "Hello" "http://localhost:11434" "llama3"
          (Except.ok ()) (Except.error "connection refused")).2 :=
  (claim7_tracing (fun s => s) "Hello" "http://localhost:11434" "llama3"
      (Except.ok ()) (Except.error "connection refused")).2.2 "connection refused" rfl rfl
